import Mathlib

/-!
Verification of the LC-3b simulator's instruction-display decoder, binary field
breakdown, and UI control handlers, against the repository's specification.

The TypeScript sources embedded here are:
* `src/lc3b-react/src/MemoryViewer.tsx` — `formatBinary`, `registerName`,
  `getBinaryBreakdown`, `decodeInstruction` (translated field-for-field,
  string-for-string; JavaScript numbers holding 16-bit words are `Nat`,
  signed field values are `Int`);
* `src/lc3b-react/src/Computer.tsx` — `handleNextInstruction`,
  `handleLoadProgram`, `updateState` (the `WasmComputer` foreign class is not
  part of the repository sources, so its observable state is modelled from the
  spec, and the step/assemble operations are taken as parameters);
* `src/lc3b-react/src/Instructions.tsx` — the per-variant encoding templates,
  used together with the spec's data model for the structured
  encode/decode pair.
-/

namespace MemoryViewer

/-- Embedding of `registerName` (MemoryViewer.tsx line 24): `R${index & 0x7}`. -/
def registerName (index : Nat) : String :=
  "R" ++ toString (index &&& 0x7)

/-- The `op` local of `decodeInstruction`: `(word >> 12) & 0xf`. -/
def op (word : Nat) : Nat := (word >>> 12) &&& 0xf

/-- The `dr` local: `(word >> 9) & 0x7`. -/
def dr (word : Nat) : Nat := (word >>> 9) &&& 0x7

/-- The `sr1` local: `(word >> 6) & 0x7`. -/
def sr1 (word : Nat) : Nat := (word >>> 6) &&& 0x7

/-- The `sr2` local: `word & 0x7`. -/
def sr2 (word : Nat) : Nat := word &&& 0x7

/-- The `imm5` local: `word & 0x1f`. -/
def imm5 (word : Nat) : Nat := word &&& 0x1f

/-- The `imm5Signed` local: `imm5 >= 16 ? imm5 - 32 : imm5`. -/
def imm5Signed (word : Nat) : Int :=
  if 16 ≤ imm5 word then (imm5 word : Int) - 32 else (imm5 word : Int)

/-- The `offset6` local: `word & 0x3f`. -/
def offset6 (word : Nat) : Nat := word &&& 0x3f

/-- The `offset6Signed` local: `offset6 >= 32 ? offset6 - 64 : offset6`. -/
def offset6Signed (word : Nat) : Int :=
  if 32 ≤ offset6 word then (offset6 word : Int) - 64 else (offset6 word : Int)

/-- The `offset9` local: `word & 0x1ff`. -/
def offset9 (word : Nat) : Nat := word &&& 0x1ff

/-- The `offset9Signed` local: `offset9 >= 256 ? offset9 - 512 : offset9`. -/
def offset9Signed (word : Nat) : Int :=
  if 256 ≤ offset9 word then (offset9 word : Int) - 512 else (offset9 word : Int)

/-- The `offset11` local: `word & 0x7ff`. -/
def offset11 (word : Nat) : Nat := word &&& 0x7ff

/-- The `offset11Signed` local: `offset11 >= 1024 ? offset11 - 2048 : offset11`. -/
def offset11Signed (word : Nat) : Int :=
  if 1024 ≤ offset11 word then (offset11 word : Int) - 2048 else (offset11 word : Int)

/-- The `trapvect8` local: `word & 0xff`. -/
def trapvect8 (word : Nat) : Nat := word &&& 0xff

/-- The `bit5` local: `(word >> 5) & 0x1`. -/
def bit5 (word : Nat) : Nat := (word >>> 5) &&& 0x1

/-- The `bit11` local: `(word >> 11) & 0x1`. -/
def bit11 (word : Nat) : Nat := (word >>> 11) &&& 0x1

/-- The `n` local: `(word >> 11) & 0x1`. -/
def n (word : Nat) : Nat := (word >>> 11) &&& 0x1

/-- The `z` local: `(word >> 10) & 0x1`. -/
def z (word : Nat) : Nat := (word >>> 10) &&& 0x1

/-- The `p` local: `(word >> 9) & 0x1`. -/
def p (word : Nat) : Nat := (word >>> 9) &&& 0x1

/-- The `shfType` local of the SHF case: `(word >> 4) & 0x3`. -/
def shfType (word : Nat) : Nat := (word >>> 4) &&& 0x3

/-- The `shfAmount` local of the SHF case: `word & 0xf`. -/
def shfAmount (word : Nat) : Nat := word &&& 0xf

/-- Uppercase hexadecimal digit, as produced by
`Number.prototype.toString(16).toUpperCase()`. -/
def hexDigit (d : Nat) : Char :=
  if d = 0 then '0' else if d = 1 then '1' else if d = 2 then '2'
  else if d = 3 then '3' else if d = 4 then '4' else if d = 5 then '5'
  else if d = 6 then '6' else if d = 7 then '7' else if d = 8 then '8'
  else if d = 9 then '9' else if d = 10 then 'A' else if d = 11 then 'B'
  else if d = 12 then 'C' else if d = 13 then 'D' else if d = 14 then 'E'
  else 'F'

/-- Hexadecimal digit list of a positive number, most significant first. -/
def hexDigits : Nat → List Char
  | 0 => []
  | m + 1 => hexDigits ((m + 1) / 16) ++ [hexDigit ((m + 1) % 16)]
decreasing_by
  simp_wf
  omega

/-- Embedding of the JavaScript `v.toString(16).toUpperCase()` rendering. -/
def natToHexUpper (v : Nat) : String :=
  if v = 0 then "0" else String.mk (hexDigits v)

/-- Embedding of the `DecodedInstruction` interface (MemoryViewer.tsx
lines 157-162). -/
structure DecodedInstruction where
  opcode : String
  variant : String
  operands : String
  comment : String
  deriving DecidableEq

/-- The `cond` local of `decodeInstruction`'s BR case (line 186):
`(n ? "n" : "") + (z ? "z" : "") + (p ? "p" : "")`. -/
def brCond (word : Nat) : String :=
  (if n word = 1 then "n" else "") ++ (if z word = 1 then "z" else "")
    ++ (if p word = 1 then "p" else "")

/-- The `trapName` local of `decodeInstruction`'s TRAP case (lines 363-371):
the `trapNames` table lookup with the hexadecimal fallback. -/
def trapName (word : Nat) : String :=
  if trapvect8 word = 0x20 then "GETC" else if trapvect8 word = 0x21 then "OUT"
  else if trapvect8 word = 0x22 then "PUTS" else if trapvect8 word = 0x23 then "IN"
  else if trapvect8 word = 0x24 then "PUTSP" else if trapvect8 word = 0x25 then "HALT"
  else "x" ++ natToHexUpper (trapvect8 word)

/-- Body of `decodeInstruction`'s `switch (op)` statement (MemoryViewer.tsx
lines 184-385), with the scrutinee `op` taken as an argument so that the
`default` arm can be reasoned about directly. All four display strings are
built exactly as in the source. -/
def decodeCase (o word : Nat) : DecodedInstruction :=
  if o = 0 then
    { opcode := "BR"
      variant := "Br(" ++ (if brCond word = "" then "nzp" else brCond word) ++ ")"
      operands := toString (offset9Signed word)
      comment := "Branch" ++ (if brCond word = "" then "" else " if " ++ brCond word)
        ++ " to PC + " ++ toString (offset9Signed word * 2) }
  else if o = 1 then
    if bit5 word = 1 then
      { opcode := "ADD", variant := "AddImm"
        operands := registerName (dr word) ++ ", " ++ registerName (sr1 word)
          ++ ", #" ++ toString (imm5Signed word)
        comment := registerName (dr word) ++ " = " ++ registerName (sr1 word)
          ++ " + " ++ toString (imm5Signed word) }
    else
      { opcode := "ADD", variant := "AddReg"
        operands := registerName (dr word) ++ ", " ++ registerName (sr1 word)
          ++ ", " ++ registerName (sr2 word)
        comment := registerName (dr word) ++ " = " ++ registerName (sr1 word)
          ++ " + " ++ registerName (sr2 word) }
  else if o = 2 then
    { opcode := "LDB", variant := "Ldb"
      operands := registerName (dr word) ++ ", " ++ registerName (sr1 word)
        ++ ", #" ++ toString (offset6Signed word)
      comment := registerName (dr word) ++ " = mem[" ++ registerName (sr1 word)
        ++ " + " ++ toString (offset6Signed word) ++ "] (byte)" }
  else if o = 3 then
    { opcode := "STB", variant := "Stb"
      operands := registerName (dr word) ++ ", " ++ registerName (sr1 word)
        ++ ", #" ++ toString (offset6Signed word)
      comment := "mem[" ++ registerName (sr1 word) ++ " + "
        ++ toString (offset6Signed word) ++ "] = " ++ registerName (dr word)
        ++ " (byte)" }
  else if o = 4 then
    if bit11 word = 1 then
      { opcode := "JSR", variant := "Jsr"
        operands := toString (offset11Signed word)
        comment := "R7 = PC; PC = PC + " ++ toString (offset11Signed word * 2) }
    else
      { opcode := "JSRR", variant := "Jsrr"
        operands := registerName (sr1 word)
        comment := "R7 = PC; PC = " ++ registerName (sr1 word) }
  else if o = 5 then
    if bit5 word = 1 then
      { opcode := "AND", variant := "AndImm"
        operands := registerName (dr word) ++ ", " ++ registerName (sr1 word)
          ++ ", #" ++ toString (imm5Signed word)
        comment := registerName (dr word) ++ " = " ++ registerName (sr1 word)
          ++ " & " ++ toString (imm5Signed word) }
    else
      { opcode := "AND", variant := "AndReg"
        operands := registerName (dr word) ++ ", " ++ registerName (sr1 word)
          ++ ", " ++ registerName (sr2 word)
        comment := registerName (dr word) ++ " = " ++ registerName (sr1 word)
          ++ " & " ++ registerName (sr2 word) }
  else if o = 6 then
    { opcode := "LDR", variant := "Ldr"
      operands := registerName (dr word) ++ ", " ++ registerName (sr1 word)
        ++ ", #" ++ toString (offset6Signed word)
      comment := registerName (dr word) ++ " = mem[" ++ registerName (sr1 word)
        ++ " + " ++ toString (offset6Signed word * 2) ++ "] (word)" }
  else if o = 7 then
    { opcode := "STR", variant := "Str"
      operands := registerName (dr word) ++ ", " ++ registerName (sr1 word)
        ++ ", #" ++ toString (offset6Signed word)
      comment := "mem[" ++ registerName (sr1 word) ++ " + "
        ++ toString (offset6Signed word * 2) ++ "] = " ++ registerName (dr word)
        ++ " (word)" }
  else if o = 8 then
    { opcode := "RTI", variant := "Rti", operands := ""
      comment := "Return from interrupt" }
  else if o = 9 then
    if bit5 word = 1 ∧ imm5 word = 0x1f then
      { opcode := "NOT", variant := "Not"
        operands := registerName (dr word) ++ ", " ++ registerName (sr1 word)
        comment := registerName (dr word) ++ " = ~" ++ registerName (sr1 word) }
    else if bit5 word = 1 then
      { opcode := "XOR", variant := "XorImm"
        operands := registerName (dr word) ++ ", " ++ registerName (sr1 word)
          ++ ", #" ++ toString (imm5Signed word)
        comment := registerName (dr word) ++ " = " ++ registerName (sr1 word)
          ++ " ^ " ++ toString (imm5Signed word) }
    else
      { opcode := "XOR", variant := "XorReg"
        operands := registerName (dr word) ++ ", " ++ registerName (sr1 word)
          ++ ", " ++ registerName (sr2 word)
        comment := registerName (dr word) ++ " = " ++ registerName (sr1 word)
          ++ " ^ " ++ registerName (sr2 word) }
  else if o = 10 then
    { opcode := "LDI", variant := "Ldi"
      operands := registerName (dr word) ++ ", " ++ registerName (sr1 word)
        ++ ", #" ++ toString (offset6Signed word)
      comment := registerName (dr word) ++ " = mem[mem[" ++ registerName (sr1 word)
        ++ " + " ++ toString (offset6Signed word * 2) ++ "]]" }
  else if o = 11 then
    { opcode := "STI", variant := "Sti"
      operands := registerName (dr word) ++ ", " ++ registerName (sr1 word)
        ++ ", #" ++ toString (offset6Signed word)
      comment := "mem[mem[" ++ registerName (sr1 word) ++ " + "
        ++ toString (offset6Signed word * 2) ++ "]] = " ++ registerName (dr word) }
  else if o = 12 then
    if sr1 word = 7 then
      { opcode := "RET", variant := "Ret", operands := ""
        comment := "Return (PC = R7)" }
    else
      { opcode := "JMP", variant := "Jmp"
        operands := registerName (sr1 word)
        comment := "PC = " ++ registerName (sr1 word) }
  else if o = 13 then
    if shfType word = 0 then
      { opcode := "LSHF", variant := "Shf(LSHF)"
        operands := registerName (dr word) ++ ", " ++ registerName (sr1 word)
          ++ ", #" ++ toString (shfAmount word)
        comment := registerName (dr word) ++ " = " ++ registerName (sr1 word)
          ++ " << " ++ toString (shfAmount word) }
    else if shfType word = 1 then
      { opcode := "RSHFL", variant := "Shf(RSHFL)"
        operands := registerName (dr word) ++ ", " ++ registerName (sr1 word)
          ++ ", #" ++ toString (shfAmount word)
        comment := registerName (dr word) ++ " = " ++ registerName (sr1 word)
          ++ " >>> " ++ toString (shfAmount word) ++ " (logical)" }
    else
      { opcode := "RSHFA", variant := "Shf(RSHFA)"
        operands := registerName (dr word) ++ ", " ++ registerName (sr1 word)
          ++ ", #" ++ toString (shfAmount word)
        comment := registerName (dr word) ++ " = " ++ registerName (sr1 word)
          ++ " >> " ++ toString (shfAmount word) ++ " (arithmetic)" }
  else if o = 14 then
    { opcode := "LEA", variant := "Lea"
      operands := registerName (dr word) ++ ", #" ++ toString (offset9Signed word)
      comment := registerName (dr word) ++ " = PC + "
        ++ toString (offset9Signed word * 2) }
  else if o = 15 then
    { opcode := "TRAP", variant := "Trap(" ++ trapName word ++ ")"
      operands := trapName word
      comment := "System call: " ++ trapName word }
  else
    { opcode := "???", variant := "Unknown", operands := ""
      comment := "Reserved/Unknown opcode" }

/-- Embedding of `decodeInstruction` (MemoryViewer.tsx lines 164-386). -/
def decodeInstruction (word : Nat) : DecodedInstruction :=
  decodeCase (op word) word

/-- Binary digit list of a positive number, most significant first, as produced
by `Number.prototype.toString(2)`. -/
def natToBin : Nat → List Char
  | 0 => []
  | m + 1 => natToBin ((m + 1) / 2) ++ [if (m + 1) % 2 = 1 then '1' else '0']
decreasing_by
  simp_wf
  omega

/-- The JavaScript `value.toString(2)` rendering (the zero case prints `"0"`). -/
def toBinaryString (v : Nat) : List Char :=
  if v = 0 then ['0'] else natToBin v

/-- The JavaScript `padStart(16, "0")` on a character list. -/
def padStart16 (l : List Char) : List Char :=
  List.replicate (16 - l.length) '0' ++ l

/-- Embedding of `formatBinary` (MemoryViewer.tsx lines 12-14):
`value.toString(2).padStart(16, "0")`, with the string kept as its character
list so that the slices below are direct. -/
def formatBinary (value : Nat) : List Char :=
  padStart16 (toBinaryString value)

/-- The JavaScript `String.prototype.slice(a, b)` on a character list. -/
def strSlice (s : List Char) (a b : Nat) : List Char :=
  (s.drop a).take (b - a)

/-- Embedding of the `BinarySegment` interface (MemoryViewer.tsx lines 28-32). -/
structure BinarySegment where
  bits : List Char
  label : String
  color : String
  deriving DecidableEq

/-- Embedding of `getBinaryBreakdown` (MemoryViewer.tsx lines 34-155); the
grouped `case` labels of the `switch` become disjunctions. -/
def getBinaryBreakdown (word : Nat) : List BinarySegment :=
  let binary := formatBinary word
  let o := op word
  let opcode := strSlice binary 0 4
  if o = 0 then
    [ { bits := opcode, label := "opcode", color := "#e94560" },
      { bits := strSlice binary 4 5, label := "n", color := "#4ecca3" },
      { bits := strSlice binary 5 6, label := "z", color := "#4ecca3" },
      { bits := strSlice binary 6 7, label := "p", color := "#4ecca3" },
      { bits := strSlice binary 7 16, label := "PCoffset9", color := "#f0a500" } ]
  else if o = 1 ∨ o = 5 then
    if bit5 word = 1 then
      [ { bits := opcode, label := "opcode", color := "#e94560" },
        { bits := strSlice binary 4 7, label := "DR", color := "#4ecca3" },
        { bits := strSlice binary 7 10, label := "SR1", color := "#00d9ff" },
        { bits := strSlice binary 10 11, label := "1", color := "#888" },
        { bits := strSlice binary 11 16, label := "imm5", color := "#f0a500" } ]
    else
      [ { bits := opcode, label := "opcode", color := "#e94560" },
        { bits := strSlice binary 4 7, label := "DR", color := "#4ecca3" },
        { bits := strSlice binary 7 10, label := "SR1", color := "#00d9ff" },
        { bits := strSlice binary 10 13, label := "0xx", color := "#888" },
        { bits := strSlice binary 13 16, label := "SR2", color := "#ff6b9d" } ]
  else if o = 2 ∨ o = 3 ∨ o = 6 ∨ o = 7 ∨ o = 10 ∨ o = 11 then
    [ { bits := opcode, label := "opcode", color := "#e94560" },
      { bits := strSlice binary 4 7,
        label := if o = 3 ∨ o = 7 ∨ o = 11 then "SR" else "DR", color := "#4ecca3" },
      { bits := strSlice binary 7 10, label := "BaseR", color := "#00d9ff" },
      { bits := strSlice binary 10 16, label := "offset6", color := "#f0a500" } ]
  else if o = 4 then
    if bit11 word = 1 then
      [ { bits := opcode, label := "opcode", color := "#e94560" },
        { bits := strSlice binary 4 5, label := "1", color := "#888" },
        { bits := strSlice binary 5 16, label := "PCoffset11", color := "#f0a500" } ]
    else
      [ { bits := opcode, label := "opcode", color := "#e94560" },
        { bits := strSlice binary 4 5, label := "0", color := "#888" },
        { bits := strSlice binary 5 7, label := "xx", color := "#888" },
        { bits := strSlice binary 7 10, label := "BaseR", color := "#00d9ff" },
        { bits := strSlice binary 10 16, label := "xxxxxx", color := "#888" } ]
  else if o = 8 then
    [ { bits := opcode, label := "opcode", color := "#e94560" },
      { bits := strSlice binary 4 16, label := "(unused)", color := "#888" } ]
  else if o = 9 then
    if bit5 word = 1 then
      [ { bits := opcode, label := "opcode", color := "#e94560" },
        { bits := strSlice binary 4 7, label := "DR", color := "#4ecca3" },
        { bits := strSlice binary 7 10, label := "SR", color := "#00d9ff" },
        { bits := strSlice binary 10 11, label := "1", color := "#888" },
        { bits := strSlice binary 11 16, label := "imm5", color := "#f0a500" } ]
    else
      [ { bits := opcode, label := "opcode", color := "#e94560" },
        { bits := strSlice binary 4 7, label := "DR", color := "#4ecca3" },
        { bits := strSlice binary 7 10, label := "SR1", color := "#00d9ff" },
        { bits := strSlice binary 10 13, label := "0xx", color := "#888" },
        { bits := strSlice binary 13 16, label := "SR2", color := "#ff6b9d" } ]
  else if o = 12 then
    [ { bits := opcode, label := "opcode", color := "#e94560" },
      { bits := strSlice binary 4 7, label := "xxx", color := "#888" },
      { bits := strSlice binary 7 10, label := "BaseR", color := "#00d9ff" },
      { bits := strSlice binary 10 16, label := "xxxxxx", color := "#888" } ]
  else if o = 13 then
    [ { bits := opcode, label := "opcode", color := "#e94560" },
      { bits := strSlice binary 4 7, label := "DR", color := "#4ecca3" },
      { bits := strSlice binary 7 10, label := "SR", color := "#00d9ff" },
      { bits := strSlice binary 10 12, label := "type", color := "#ff6b9d" },
      { bits := strSlice binary 12 16, label := "amount4", color := "#f0a500" } ]
  else if o = 14 then
    [ { bits := opcode, label := "opcode", color := "#e94560" },
      { bits := strSlice binary 4 7, label := "DR", color := "#4ecca3" },
      { bits := strSlice binary 7 16, label := "PCoffset9", color := "#f0a500" } ]
  else if o = 15 then
    [ { bits := opcode, label := "opcode", color := "#e94560" },
      { bits := strSlice binary 4 8, label := "xxxx", color := "#888" },
      { bits := strSlice binary 8 16, label := "trapvect8", color := "#f0a500" } ]
  else
    [ { bits := opcode, label := "opcode", color := "#e94560" },
      { bits := strSlice binary 4 16, label := "???", color := "#888" } ]

end MemoryViewer

namespace Isa

/-- Modelled from the spec: the Rust core's `Instruction` sum type is not among
the repository sources; this follows §3 Data Model word for word — one variant
per opcode-and-addressing-mode combination, register indices as `Nat` (0-7),
sign-extended immediates and offsets as `Int`, the branch condition mask as
three booleans, and the trap vector as `Nat` (0-255). -/
inductive Instruction : Type where
  | AddReg (dr sr1 sr2 : Nat)
  | AddImm (dr sr1 : Nat) (imm : Int)
  | AndReg (dr sr1 sr2 : Nat)
  | AndImm (dr sr1 : Nat) (imm : Int)
  | XorReg (dr sr1 sr2 : Nat)
  | XorImm (dr sr1 : Nat) (imm : Int)
  | Not (dr sr : Nat)
  | Branch (n z p : Bool) (offset : Int)
  | Jmp (base : Nat)
  | Jsr (offset : Int)
  | Jsrr (base : Nat)
  | Ret
  | LoadByte (dr base : Nat) (offset : Int)
  | LoadWord (dr base : Nat) (offset : Int)
  | LoadIndirect (dr base : Nat) (offset : Int)
  | LeaEffectiveAddr (dr : Nat) (offset : Int)
  | StoreByte (sr base : Nat) (offset : Int)
  | StoreWord (sr base : Nat) (offset : Int)
  | StoreIndirect (sr base : Nat) (offset : Int)
  | ShiftLeft (dr sr : Nat) (amount : Nat)
  | ShiftRightLogical (dr sr : Nat) (amount : Nat)
  | ShiftRightArithmetic (dr sr : Nat) (amount : Nat)
  | ReturnFromInterrupt
  | Trap (vector : Nat)
  deriving DecidableEq

open MemoryViewer in
/-- Modelled from the spec: the Rust core's `decode` (§4.1) is not among the
repository sources. The field extractions and every tie-break (register versus
immediate by bit 5, NOT as the all-ones immediate, JSR versus JSRR by bit 11,
RET as base register 7, the 2-bit shift selector) follow the dispatch of
`decodeInstruction` in MemoryViewer.tsx, which is in the sources; reserved
opcode patterns yield `none`, the explicit "unknown instruction" outcome. -/
def decode (word : Nat) : Option Instruction :=
  if op word = 0 then
    some (.Branch (n word == 1) (z word == 1) (p word == 1) (offset9Signed word))
  else if op word = 1 then
    if bit5 word = 1 then some (.AddImm (dr word) (sr1 word) (imm5Signed word))
    else some (.AddReg (dr word) (sr1 word) (sr2 word))
  else if op word = 2 then
    some (.LoadByte (dr word) (sr1 word) (offset6Signed word))
  else if op word = 3 then
    some (.StoreByte (dr word) (sr1 word) (offset6Signed word))
  else if op word = 4 then
    if bit11 word = 1 then some (.Jsr (offset11Signed word))
    else some (.Jsrr (sr1 word))
  else if op word = 5 then
    if bit5 word = 1 then some (.AndImm (dr word) (sr1 word) (imm5Signed word))
    else some (.AndReg (dr word) (sr1 word) (sr2 word))
  else if op word = 6 then
    some (.LoadWord (dr word) (sr1 word) (offset6Signed word))
  else if op word = 7 then
    some (.StoreWord (dr word) (sr1 word) (offset6Signed word))
  else if op word = 8 then
    some .ReturnFromInterrupt
  else if op word = 9 then
    if bit5 word = 1 ∧ imm5 word = 0x1f then some (.Not (dr word) (sr1 word))
    else if bit5 word = 1 then some (.XorImm (dr word) (sr1 word) (imm5Signed word))
    else some (.XorReg (dr word) (sr1 word) (sr2 word))
  else if op word = 10 then
    some (.LoadIndirect (dr word) (sr1 word) (offset6Signed word))
  else if op word = 11 then
    some (.StoreIndirect (dr word) (sr1 word) (offset6Signed word))
  else if op word = 12 then
    if sr1 word = 7 then some .Ret else some (.Jmp (sr1 word))
  else if op word = 13 then
    if shfType word = 0 then some (.ShiftLeft (dr word) (sr1 word) (shfAmount word))
    else if shfType word = 1 then
      some (.ShiftRightLogical (dr word) (sr1 word) (shfAmount word))
    else some (.ShiftRightArithmetic (dr word) (sr1 word) (shfAmount word))
  else if op word = 14 then
    some (.LeaEffectiveAddr (dr word) (offset9Signed word))
  else if op word = 15 then
    some (.Trap (trapvect8 word))
  else
    none

/-- Modelled from the spec: the Rust core's `encode` (§4.1) is not among the
repository sources. Bit layouts follow the encoding column of the
`instructions` table in Instructions.tsx; per §4.1 it fails (returns `none`)
whenever an operand value exceeds its field's representable range, and signed
fields are re-truncated to two's complement. -/
def encode : Instruction → Option Nat
  | .AddReg d s t =>
    if d < 8 ∧ s < 8 ∧ t < 8 then some (0x1000 + 512 * d + 64 * s + t) else none
  | .AddImm d s m =>
    if d < 8 ∧ s < 8 ∧ -16 ≤ m ∧ m ≤ 15 then
      some (0x1000 + 512 * d + 64 * s + 32 + (m % 32).toNat) else none
  | .AndReg d s t =>
    if d < 8 ∧ s < 8 ∧ t < 8 then some (0x5000 + 512 * d + 64 * s + t) else none
  | .AndImm d s m =>
    if d < 8 ∧ s < 8 ∧ -16 ≤ m ∧ m ≤ 15 then
      some (0x5000 + 512 * d + 64 * s + 32 + (m % 32).toNat) else none
  | .XorReg d s t =>
    if d < 8 ∧ s < 8 ∧ t < 8 then some (0x9000 + 512 * d + 64 * s + t) else none
  | .XorImm d s m =>
    if d < 8 ∧ s < 8 ∧ -16 ≤ m ∧ m ≤ 15 then
      some (0x9000 + 512 * d + 64 * s + 32 + (m % 32).toNat) else none
  | .Not d s =>
    if d < 8 ∧ s < 8 then some (0x9000 + 512 * d + 64 * s + 32 + 31) else none
  | .Branch nb zb pb off =>
    if -256 ≤ off ∧ off ≤ 255 then
      some ((if nb then 2048 else 0) + (if zb then 1024 else 0)
        + (if pb then 512 else 0) + (off % 512).toNat) else none
  | .Jmp b => if b < 8 then some (0xC000 + 64 * b) else none
  | .Jsr off =>
    if -1024 ≤ off ∧ off ≤ 1023 then
      some (0x4000 + 2048 + (off % 2048).toNat) else none
  | .Jsrr b => if b < 8 then some (0x4000 + 64 * b) else none
  | .Ret => some (0xC000 + 64 * 7)
  | .LoadByte d b off =>
    if d < 8 ∧ b < 8 ∧ -32 ≤ off ∧ off ≤ 31 then
      some (0x2000 + 512 * d + 64 * b + (off % 64).toNat) else none
  | .LoadWord d b off =>
    if d < 8 ∧ b < 8 ∧ -32 ≤ off ∧ off ≤ 31 then
      some (0x6000 + 512 * d + 64 * b + (off % 64).toNat) else none
  | .LoadIndirect d b off =>
    if d < 8 ∧ b < 8 ∧ -32 ≤ off ∧ off ≤ 31 then
      some (0xA000 + 512 * d + 64 * b + (off % 64).toNat) else none
  | .LeaEffectiveAddr d off =>
    if d < 8 ∧ -256 ≤ off ∧ off ≤ 255 then
      some (0xE000 + 512 * d + (off % 512).toNat) else none
  | .StoreByte s b off =>
    if s < 8 ∧ b < 8 ∧ -32 ≤ off ∧ off ≤ 31 then
      some (0x3000 + 512 * s + 64 * b + (off % 64).toNat) else none
  | .StoreWord s b off =>
    if s < 8 ∧ b < 8 ∧ -32 ≤ off ∧ off ≤ 31 then
      some (0x7000 + 512 * s + 64 * b + (off % 64).toNat) else none
  | .StoreIndirect s b off =>
    if s < 8 ∧ b < 8 ∧ -32 ≤ off ∧ off ≤ 31 then
      some (0xB000 + 512 * s + 64 * b + (off % 64).toNat) else none
  | .ShiftLeft d s a =>
    if d < 8 ∧ s < 8 ∧ a < 16 then some (0xD000 + 512 * d + 64 * s + a) else none
  | .ShiftRightLogical d s a =>
    if d < 8 ∧ s < 8 ∧ a < 16 then
      some (0xD000 + 512 * d + 64 * s + 16 + a) else none
  | .ShiftRightArithmetic d s a =>
    if d < 8 ∧ s < 8 ∧ a < 16 then
      some (0xD000 + 512 * d + 64 * s + 48 + a) else none
  | .ReturnFromInterrupt => some 0x8000
  | .Trap v => if v < 256 then some (0xF000 + v) else none

open MemoryViewer in
/-- Words whose opcode/mode bits are valid: the fixed bits shown in the
encoding column of the `instructions` table (Instructions.tsx lines 13-272)
hold their documented values. Opcodes whose templates use all 16 bits impose
no constraint. -/
def validWord (w : Nat) : Prop :=
  ((op w = 1 ∨ op w = 5 ∨ op w = 9) → (bit5 w = 1 ∨ (w >>> 3) &&& 3 = 0)) ∧
  (op w = 4 → (bit11 w = 1 ∨ ((w >>> 9) &&& 3 = 0 ∧ offset6 w = 0))) ∧
  (op w = 8 → w &&& 0xfff = 0) ∧
  (op w = 12 → (dr w = 0 ∧ offset6 w = 0)) ∧
  (op w = 13 → (shfType w = 0 ∨ shfType w = 1 ∨ shfType w = 3)) ∧
  (op w = 15 → (w >>> 8) &&& 0xf = 0)

/-- Canonical instructions: every representable instruction except the two
forms whose encodings coincide with a more specific variant's (the decoder
commits those words to `Not` and `Ret` respectively). -/
def canonical : Instruction → Prop
  | .XorImm _ _ m => m ≠ -1
  | .Jmp b => b ≠ 7
  | _ => True

end Isa

namespace Computer

/-- Modelled from the spec: the observable state of the foreign `WasmComputer`
class (its Rust implementation is not among the repository sources), holding
exactly the fields of §6's query interface — program counter, the eight
registers, the three condition codes, the console buffer, the halted flag and
the last-modified-register report (a JavaScript number, negative when no
register was written). -/
structure WasmComputer where
  pc : Nat
  r0 : Int
  r1 : Int
  r2 : Int
  r3 : Int
  r4 : Int
  r5 : Int
  r6 : Int
  r7 : Int
  ccN : Bool
  ccZ : Bool
  ccP : Bool
  console : String
  halted : Bool
  lastModified : Int
  deriving DecidableEq

/-- Embedding of the React component state of `Computer` (Computer.tsx):
the fields touched by `handleLoadProgram`, `handleNextInstruction` and
`updateState`. `computer` models the `computerRef` holding the current
`WasmComputer` instance (or `null`). -/
structure UIState where
  assembly : String
  computer : Option WasmComputer
  programLoaded : Bool
  loadError : Option String
  instructionCount : Nat
  pc : Nat
  n : Bool
  z : Bool
  p : Bool
  r0 : Int
  r1 : Int
  r2 : Int
  r3 : Int
  r4 : Int
  r5 : Int
  r6 : Int
  r7 : Int
  modifiedRegister : Option Nat
  consoleOutput : String
  isHalted : Bool
  deriving DecidableEq

/-- Embedding of `updateState` (Computer.tsx lines 156-196): when a computer
is present, copy its program counter, condition codes, registers, console
output and halted flag into the component state; otherwise do nothing. -/
def updateState (st : UIState) : UIState :=
  match st.computer with
  | none => st
  | some c =>
    { st with
      pc := c.pc
      n := c.ccN, z := c.ccZ, p := c.ccP
      r0 := c.r0, r1 := c.r1, r2 := c.r2, r3 := c.r3
      r4 := c.r4, r5 := c.r5, r6 := c.r6, r7 := c.r7
      consoleOutput := c.console
      isHalted := c.halted }

/-- Embedding of `handleNextInstruction` (Computer.tsx lines 242-254). The
foreign `computer.next_instruction()` call is taken as the parameter `next`
(the Rust implementation is not among the repository sources); the guard
`if (computer && !computer.is_halted())` is the `match`/`if` below, and on
success the instruction count is bumped, the last-modified register recorded,
and `updateState` run against the stepped computer. -/
def handleNextInstruction (next : WasmComputer → WasmComputer)
    (st : UIState) : UIState :=
  match st.computer with
  | none => st
  | some c =>
    if c.halted then st
    else
      let stepped := next c
      let modReg := stepped.lastModified
      updateState
        { st with
          computer := some stepped
          instructionCount := st.instructionCount + 1
          modifiedRegister := if 0 ≤ modReg then some modReg.toNat else none }

/-- Embedding of `handleLoadProgram` (Computer.tsx lines 224-240). The foreign
`new WasmComputer()` + `computer.load_assembly(assembly)` pair is taken as the
parameter `assemble` (the Rust implementation is not among the repository
sources), throwing (`Except.error`) on any assembly error. On success the
fresh instance is installed, the error cleared, the instruction count zeroed,
the console cleared, the halted flag lowered and `updateState` run; on error
the message is recorded, the program marked unloaded and the computer
reference nulled. -/
def handleLoadProgram (assemble : String → Except String WasmComputer)
    (st : UIState) : UIState :=
  match assemble st.assembly with
  | .ok c =>
    updateState
      { st with
        computer := some c
        loadError := none
        instructionCount := 0
        programLoaded := true
        consoleOutput := ""
        isHalted := false }
  | .error e =>
    { st with
      loadError := some e
      programLoaded := false
      computer := none }

end Computer

/-- Generic mask identity: `w &&& (2^k - 1) = w % 2^k`, used to restate the
JavaScript bit extractions arithmetically. -/
theorem and_mask (w k : Nat) : w &&& (2 ^ k - 1) = w % 2 ^ k := by
  apply Nat.eq_of_testBit_eq
  intro i
  rw [Nat.testBit_and, Nat.testBit_mod_two_pow, Nat.testBit_two_pow_sub_one]
  rw [Bool.and_comm]

/-- Generic extraction identity: `(w >>> a) &&& (2^k - 1) = w / 2^a % 2^k`. -/
theorem extract_eq (w a k : Nat) :
    (w >>> a) &&& (2 ^ k - 1) = w / 2 ^ a % 2 ^ k := by
  rw [and_mask, Nat.shiftRight_eq_div_pow]

namespace MemoryViewer

theorem op_eq (w : Nat) : op w = w / 4096 % 16 := by
  have h := extract_eq w 12 4; norm_num at h; exact h

theorem dr_eq (w : Nat) : dr w = w / 512 % 8 := by
  have h := extract_eq w 9 3; norm_num at h; exact h

theorem sr1_eq (w : Nat) : sr1 w = w / 64 % 8 := by
  have h := extract_eq w 6 3; norm_num at h; exact h

theorem sr2_eq (w : Nat) : sr2 w = w % 8 := by
  have h := and_mask w 3; norm_num at h; exact h

theorem imm5_eq (w : Nat) : imm5 w = w % 32 := by
  have h := and_mask w 5; norm_num at h; exact h

theorem offset6_eq (w : Nat) : offset6 w = w % 64 := by
  have h := and_mask w 6; norm_num at h; exact h

theorem offset9_eq (w : Nat) : offset9 w = w % 512 := by
  have h := and_mask w 9; norm_num at h; exact h

theorem offset11_eq (w : Nat) : offset11 w = w % 2048 := by
  have h := and_mask w 11; norm_num at h; exact h

theorem trapvect8_eq (w : Nat) : trapvect8 w = w % 256 := by
  have h := and_mask w 8; norm_num at h; exact h

theorem bit5_eq (w : Nat) : bit5 w = w / 32 % 2 := by
  have h := extract_eq w 5 1; norm_num at h; unfold bit5; norm_num; exact h

theorem bit11_eq (w : Nat) : bit11 w = w / 2048 % 2 := by
  have h := extract_eq w 11 1; norm_num at h; unfold bit11; norm_num; exact h

theorem n_eq (w : Nat) : n w = w / 2048 % 2 := by
  have h := extract_eq w 11 1; norm_num at h; unfold n; norm_num; exact h

theorem z_eq (w : Nat) : z w = w / 1024 % 2 := by
  have h := extract_eq w 10 1; norm_num at h; unfold z; norm_num; exact h

theorem p_eq (w : Nat) : p w = w / 512 % 2 := by
  have h := extract_eq w 9 1; norm_num at h; unfold p; norm_num; exact h

theorem shfType_eq (w : Nat) : shfType w = w / 16 % 4 := by
  have h := extract_eq w 4 2; norm_num at h; exact h

theorem shfAmount_eq (w : Nat) : shfAmount w = w % 16 := by
  have h := and_mask w 4; norm_num at h; exact h

end MemoryViewer

namespace Isa

set_option maxHeartbeats 1000000 in
set_option linter.unreachableTactic false in
open MemoryViewer in
/-- Re-encoding after decoding restores every 16-bit word whose opcode/mode
bits are valid. -/
theorem encode_decode (w : Nat) (hw : w < 65536) (hv : validWord w) :
    (decode w).bind encode = some w := by
  have e43 : w >>> 3 &&& 3 = w / 8 % 4 := by
    have h := extract_eq w 3 2; norm_num at h; exact h
  have e93 : w >>> 9 &&& 3 = w / 512 % 4 := by
    have h := extract_eq w 9 2; norm_num at h; exact h
  have efff : w &&& 0xfff = w % 4096 := by
    have h := and_mask w 12; norm_num at h; exact h
  have e8f : w >>> 8 &&& 0xf = w / 256 % 16 := by
    have h := extract_eq w 8 4; norm_num at h; exact h
  simp only [validWord, op_eq, bit5_eq, bit11_eq, offset6_eq, dr_eq, shfType_eq,
    e43, e93, efff, e8f] at hv
  obtain ⟨hv1, hv4, hv8, hv12, hv13, hv15⟩ := hv
  simp only [decode, op_eq, dr_eq, sr1_eq, sr2_eq, bit5_eq, bit11_eq, imm5_eq,
    imm5Signed, offset6_eq, offset6Signed, offset9_eq, offset9Signed,
    offset11_eq, offset11Signed, trapvect8_eq, n_eq, z_eq, p_eq, shfType_eq,
    shfAmount_eq]
  have hcase : w / 4096 % 16 = 0 ∨ w / 4096 % 16 = 1 ∨ w / 4096 % 16 = 2 ∨
      w / 4096 % 16 = 3 ∨ w / 4096 % 16 = 4 ∨ w / 4096 % 16 = 5 ∨
      w / 4096 % 16 = 6 ∨ w / 4096 % 16 = 7 ∨ w / 4096 % 16 = 8 ∨
      w / 4096 % 16 = 9 ∨ w / 4096 % 16 = 10 ∨ w / 4096 % 16 = 11 ∨
      w / 4096 % 16 = 12 ∨ w / 4096 % 16 = 13 ∨ w / 4096 % 16 = 14 ∨
      w / 4096 % 16 = 15 := by omega
  clear e43 e93 efff e8f
  rcases hcase with h|h|h|h|h|h|h|h|h|h|h|h|h|h|h|h
  · -- BR
    clear hv1 hv4 hv8 hv12 hv13 hv15
    simp only [h]
    norm_num
    split_ifs <;>
      (simp only [Option.some_bind, encode]
       rw [if_pos (by omega)]
       simp only [Option.some.injEq]
       split_ifs <;>
         simp only [Bool.not_eq_true, beq_iff_eq, beq_eq_false_iff_ne] at * <;>
         omega)
  · -- ADD
    have hmode := hv1 (Or.inl h)
    clear hv1 hv4 hv8 hv12 hv13 hv15
    simp only [h]
    norm_num
    split_ifs <;>
      (simp only [Option.some_bind, encode]
       rw [if_pos (by omega)]
       simp only [Option.some.injEq]
       omega)
  · -- LDB
    clear hv1 hv4 hv8 hv12 hv13 hv15
    simp only [h]
    norm_num
    simp only [Option.some_bind, encode]
    rw [if_pos (by split_ifs <;> omega)]
    simp only [Option.some.injEq]
    split_ifs <;> omega
  · -- STB
    clear hv1 hv4 hv8 hv12 hv13 hv15
    simp only [h]
    norm_num
    simp only [Option.some_bind, encode]
    rw [if_pos (by split_ifs <;> omega)]
    simp only [Option.some.injEq]
    split_ifs <;> omega
  · -- JSR / JSRR
    have hmode := hv4 h
    clear hv1 hv4 hv8 hv12 hv13 hv15
    simp only [h]
    norm_num
    split_ifs <;>
      (simp only [Option.some_bind, encode]
       rw [if_pos (by omega)]
       simp only [Option.some.injEq]
       omega)
  · -- AND
    have hmode := hv1 (Or.inr (Or.inl h))
    clear hv1 hv4 hv8 hv12 hv13 hv15
    simp only [h]
    norm_num
    split_ifs <;>
      (simp only [Option.some_bind, encode]
       rw [if_pos (by omega)]
       simp only [Option.some.injEq]
       omega)
  · -- LDR
    clear hv1 hv4 hv8 hv12 hv13 hv15
    simp only [h]
    norm_num
    simp only [Option.some_bind, encode]
    rw [if_pos (by split_ifs <;> omega)]
    simp only [Option.some.injEq]
    split_ifs <;> omega
  · -- STR
    clear hv1 hv4 hv8 hv12 hv13 hv15
    simp only [h]
    norm_num
    simp only [Option.some_bind, encode]
    rw [if_pos (by split_ifs <;> omega)]
    simp only [Option.some.injEq]
    split_ifs <;> omega
  · -- RTI
    have hmode := hv8 h
    clear hv1 hv4 hv8 hv12 hv13 hv15
    simp only [h]
    norm_num
    simp only [Option.some_bind, encode, Option.some.injEq]
    omega
  · -- XOR / NOT
    have hmode := hv1 (Or.inr (Or.inr h))
    clear hv1 hv4 hv8 hv12 hv13 hv15
    simp only [h]
    norm_num
    split_ifs <;>
      (simp only [Option.some_bind, encode]
       rw [if_pos (by omega)]
       simp only [Option.some.injEq]
       omega)
  · -- LDI
    clear hv1 hv4 hv8 hv12 hv13 hv15
    simp only [h]
    norm_num
    simp only [Option.some_bind, encode]
    rw [if_pos (by split_ifs <;> omega)]
    simp only [Option.some.injEq]
    split_ifs <;> omega
  · -- STI
    clear hv1 hv4 hv8 hv12 hv13 hv15
    simp only [h]
    norm_num
    simp only [Option.some_bind, encode]
    rw [if_pos (by split_ifs <;> omega)]
    simp only [Option.some.injEq]
    split_ifs <;> omega
  · -- JMP / RET
    have hmode := hv12 h
    clear hv1 hv4 hv8 hv12 hv13 hv15
    simp only [h]
    norm_num
    split_ifs with h7
    · simp only [Option.some_bind, encode, Option.some.injEq]
      omega
    · simp only [Option.some_bind, encode]
      rw [if_pos (by omega)]
      simp only [Option.some.injEq]
      omega
  · -- SHF
    have hmode := hv13 h
    clear hv1 hv4 hv8 hv12 hv13 hv15
    simp only [h]
    norm_num
    split_ifs <;>
      (simp only [Option.some_bind, encode]
       rw [if_pos (by omega)]
       simp only [Option.some.injEq]
       omega)
  · -- LEA
    clear hv1 hv4 hv8 hv12 hv13 hv15
    simp only [h]
    norm_num
    simp only [Option.some_bind, encode]
    rw [if_pos (by split_ifs <;> omega)]
    simp only [Option.some.injEq]
    split_ifs <;> omega
  · -- TRAP
    have hmode := hv15 h
    clear hv1 hv4 hv8 hv12 hv13 hv15
    simp only [h]
    norm_num
    simp only [Option.some_bind, encode]
    rw [if_pos (by omega)]
    simp only [Option.some.injEq]
    omega

set_option maxHeartbeats 1000000 in
set_option linter.unreachableTactic false in
set_option linter.unusedVariables false in
set_option linter.unusedTactic false in
open MemoryViewer in
/-- Decoding after encoding restores every canonical in-range instruction. -/
theorem decode_encode (i : Instruction) (w : Nat) (hc : canonical i)
    (he : encode i = some w) : decode w = some i := by
  cases i with
  | AddReg d s t =>
    simp only [encode] at he
    split_ifs at he with hr
    · simp only [Option.some.injEq] at he
      simp only [decode, op_eq, dr_eq, sr1_eq, sr2_eq, bit5_eq, bit11_eq,
        imm5_eq, imm5Signed, offset6_eq, offset6Signed, offset9_eq,
        offset9Signed, offset11_eq, offset11Signed, trapvect8_eq, n_eq, z_eq,
        p_eq, shfType_eq, shfAmount_eq]
      have hop : w / 4096 % 16 = 1 := by omega
      simp only [hop]
      norm_num
      have hb : w / 32 % 2 = 0 := by omega
      simp only [hb]
      norm_num
      first
        | omega
        | (simp only [Option.some.injEq, Instruction.AddReg.injEq]
           omega)
  | AddImm d s m =>
    simp only [encode] at he
    split_ifs at he with hr
    · simp only [Option.some.injEq] at he
      simp only [decode, op_eq, dr_eq, sr1_eq, sr2_eq, bit5_eq, bit11_eq,
        imm5_eq, imm5Signed, offset6_eq, offset6Signed, offset9_eq,
        offset9Signed, offset11_eq, offset11Signed, trapvect8_eq, n_eq, z_eq,
        p_eq, shfType_eq, shfAmount_eq]
      have hop : w / 4096 % 16 = 1 := by omega
      simp only [hop]
      norm_num
      have hb : w / 32 % 2 = 1 := by omega
      simp only [hb]
      norm_num
      first
        | (split_ifs <;> omega)
        | (simp only [Option.some.injEq, Instruction.AddImm.injEq]
           split_ifs <;> omega)
        | omega
  | AndReg d s t =>
    simp only [encode] at he
    split_ifs at he with hr
    · simp only [Option.some.injEq] at he
      simp only [decode, op_eq, dr_eq, sr1_eq, sr2_eq, bit5_eq, bit11_eq,
        imm5_eq, imm5Signed, offset6_eq, offset6Signed, offset9_eq,
        offset9Signed, offset11_eq, offset11Signed, trapvect8_eq, n_eq, z_eq,
        p_eq, shfType_eq, shfAmount_eq]
      have hop : w / 4096 % 16 = 5 := by omega
      simp only [hop]
      norm_num
      have hb : w / 32 % 2 = 0 := by omega
      simp only [hb]
      norm_num
      first
        | omega
        | (simp only [Option.some.injEq, Instruction.AndReg.injEq]
           omega)
  | AndImm d s m =>
    simp only [encode] at he
    split_ifs at he with hr
    · simp only [Option.some.injEq] at he
      simp only [decode, op_eq, dr_eq, sr1_eq, sr2_eq, bit5_eq, bit11_eq,
        imm5_eq, imm5Signed, offset6_eq, offset6Signed, offset9_eq,
        offset9Signed, offset11_eq, offset11Signed, trapvect8_eq, n_eq, z_eq,
        p_eq, shfType_eq, shfAmount_eq]
      have hop : w / 4096 % 16 = 5 := by omega
      simp only [hop]
      norm_num
      have hb : w / 32 % 2 = 1 := by omega
      simp only [hb]
      norm_num
      first
        | (split_ifs <;> omega)
        | (simp only [Option.some.injEq, Instruction.AndImm.injEq]
           split_ifs <;> omega)
        | omega
  | XorReg d s t =>
    simp only [encode] at he
    split_ifs at he with hr
    · simp only [Option.some.injEq] at he
      simp only [decode, op_eq, dr_eq, sr1_eq, sr2_eq, bit5_eq, bit11_eq,
        imm5_eq, imm5Signed, offset6_eq, offset6Signed, offset9_eq,
        offset9Signed, offset11_eq, offset11Signed, trapvect8_eq, n_eq, z_eq,
        p_eq, shfType_eq, shfAmount_eq]
      have hop : w / 4096 % 16 = 9 := by omega
      simp only [hop]
      norm_num
      have hb : w / 32 % 2 = 0 := by omega
      simp only [hb]
      norm_num
      first
        | omega
        | (simp only [Option.some.injEq, Instruction.XorReg.injEq]
           omega)
  | XorImm d s m =>
    simp only [encode] at he
    simp only [canonical] at hc
    split_ifs at he with hr
    · simp only [Option.some.injEq] at he
      simp only [decode, op_eq, dr_eq, sr1_eq, sr2_eq, bit5_eq, bit11_eq,
        imm5_eq, imm5Signed, offset6_eq, offset6Signed, offset9_eq,
        offset9Signed, offset11_eq, offset11Signed, trapvect8_eq, n_eq, z_eq,
        p_eq, shfType_eq, shfAmount_eq]
      have hop : w / 4096 % 16 = 9 := by omega
      simp only [hop]
      norm_num
      rw [if_neg (by omega), if_pos (by omega)]
      first
        | (split_ifs <;> omega)
        | (simp only [Option.some.injEq, Instruction.XorImm.injEq]
           split_ifs <;> omega)
        | omega
  | Not d s =>
    simp only [encode] at he
    split_ifs at he with hr
    · simp only [Option.some.injEq] at he
      simp only [decode, op_eq, dr_eq, sr1_eq, sr2_eq, bit5_eq, bit11_eq,
        imm5_eq, imm5Signed, offset6_eq, offset6Signed, offset9_eq,
        offset9Signed, offset11_eq, offset11Signed, trapvect8_eq, n_eq, z_eq,
        p_eq, shfType_eq, shfAmount_eq]
      have hop : w / 4096 % 16 = 9 := by omega
      simp only [hop]
      norm_num
      rw [if_pos (by omega)]
      first
        | omega
        | (simp only [Option.some.injEq, Instruction.Not.injEq]
           omega)
  | Branch nb zb pb off =>
    cases nb <;> cases zb <;> cases pb <;>
      (simp only [encode] at he
       norm_num at he
       simp only [decode, op_eq, n_eq, z_eq, p_eq, offset9_eq, offset9Signed]
       have hop : w / 4096 % 16 = 0 := by omega
       simp only [hop]
       norm_num
       first
         | exact ⟨by omega, by omega, by omega, by split_ifs <;> omega⟩
         | (simp only [Option.some.injEq, Instruction.Branch.injEq, beq_iff_eq,
              beq_eq_false_iff_ne]
            exact ⟨by omega, by omega, by omega, by split_ifs <;> omega⟩))
  | Jmp b =>
    simp only [encode] at he
    simp only [canonical] at hc
    split_ifs at he with hr
    · simp only [Option.some.injEq] at he
      simp only [decode, op_eq, dr_eq, sr1_eq, sr2_eq, bit5_eq, bit11_eq,
        imm5_eq, imm5Signed, offset6_eq, offset6Signed, offset9_eq,
        offset9Signed, offset11_eq, offset11Signed, trapvect8_eq, n_eq, z_eq,
        p_eq, shfType_eq, shfAmount_eq]
      have hop : w / 4096 % 16 = 12 := by omega
      simp only [hop]
      norm_num
      rw [if_neg (by omega)]
      first
        | omega
        | (simp only [Option.some.injEq, Instruction.Jmp.injEq]
           omega)
  | Jsr off =>
    simp only [encode] at he
    split_ifs at he with hr
    · simp only [Option.some.injEq] at he
      simp only [decode, op_eq, dr_eq, sr1_eq, sr2_eq, bit5_eq, bit11_eq,
        imm5_eq, imm5Signed, offset6_eq, offset6Signed, offset9_eq,
        offset9Signed, offset11_eq, offset11Signed, trapvect8_eq, n_eq, z_eq,
        p_eq, shfType_eq, shfAmount_eq]
      have hop : w / 4096 % 16 = 4 := by omega
      simp only [hop]
      norm_num
      have hb : w / 2048 % 2 = 1 := by omega
      simp only [hb]
      norm_num
      first
        | (split_ifs <;> omega)
        | (simp only [Option.some.injEq, Instruction.Jsr.injEq]
           split_ifs <;> omega)
        | omega
  | Jsrr b =>
    simp only [encode] at he
    split_ifs at he with hr
    · simp only [Option.some.injEq] at he
      simp only [decode, op_eq, dr_eq, sr1_eq, sr2_eq, bit5_eq, bit11_eq,
        imm5_eq, imm5Signed, offset6_eq, offset6Signed, offset9_eq,
        offset9Signed, offset11_eq, offset11Signed, trapvect8_eq, n_eq, z_eq,
        p_eq, shfType_eq, shfAmount_eq]
      have hop : w / 4096 % 16 = 4 := by omega
      simp only [hop]
      norm_num
      have hb : w / 2048 % 2 = 0 := by omega
      simp only [hb]
      norm_num
      first
        | omega
        | (simp only [Option.some.injEq, Instruction.Jsrr.injEq]
           omega)
  | Ret =>
    simp only [encode, Option.some.injEq] at he
    simp only [decode, op_eq, dr_eq, sr1_eq, sr2_eq, bit5_eq, bit11_eq,
        imm5_eq, imm5Signed, offset6_eq, offset6Signed, offset9_eq,
        offset9Signed, offset11_eq, offset11Signed, trapvect8_eq, n_eq, z_eq,
        p_eq, shfType_eq, shfAmount_eq]
    have hop : w / 4096 % 16 = 12 := by omega
    simp only [hop]
    norm_num
    intro hne
    exact absurd (by omega) hne
  | LoadByte d b off =>
    simp only [encode] at he
    split_ifs at he with hr
    · simp only [Option.some.injEq] at he
      simp only [decode, op_eq, dr_eq, sr1_eq, sr2_eq, bit5_eq, bit11_eq,
        imm5_eq, imm5Signed, offset6_eq, offset6Signed, offset9_eq,
        offset9Signed, offset11_eq, offset11Signed, trapvect8_eq, n_eq, z_eq,
        p_eq, shfType_eq, shfAmount_eq]
      have hop : w / 4096 % 16 = 2 := by omega
      simp only [hop]
      norm_num
      first
        | (split_ifs <;> omega)
        | (simp only [Option.some.injEq, Instruction.LoadByte.injEq]
           split_ifs <;> omega)
        | omega
  | LoadWord d b off =>
    simp only [encode] at he
    split_ifs at he with hr
    · simp only [Option.some.injEq] at he
      simp only [decode, op_eq, dr_eq, sr1_eq, sr2_eq, bit5_eq, bit11_eq,
        imm5_eq, imm5Signed, offset6_eq, offset6Signed, offset9_eq,
        offset9Signed, offset11_eq, offset11Signed, trapvect8_eq, n_eq, z_eq,
        p_eq, shfType_eq, shfAmount_eq]
      have hop : w / 4096 % 16 = 6 := by omega
      simp only [hop]
      norm_num
      first
        | (split_ifs <;> omega)
        | (simp only [Option.some.injEq, Instruction.LoadWord.injEq]
           split_ifs <;> omega)
        | omega
  | LoadIndirect d b off =>
    simp only [encode] at he
    split_ifs at he with hr
    · simp only [Option.some.injEq] at he
      simp only [decode, op_eq, dr_eq, sr1_eq, sr2_eq, bit5_eq, bit11_eq,
        imm5_eq, imm5Signed, offset6_eq, offset6Signed, offset9_eq,
        offset9Signed, offset11_eq, offset11Signed, trapvect8_eq, n_eq, z_eq,
        p_eq, shfType_eq, shfAmount_eq]
      have hop : w / 4096 % 16 = 10 := by omega
      simp only [hop]
      norm_num
      first
        | (split_ifs <;> omega)
        | (simp only [Option.some.injEq, Instruction.LoadIndirect.injEq]
           split_ifs <;> omega)
        | omega
  | LeaEffectiveAddr d off =>
    simp only [encode] at he
    split_ifs at he with hr
    · simp only [Option.some.injEq] at he
      simp only [decode, op_eq, dr_eq, sr1_eq, sr2_eq, bit5_eq, bit11_eq,
        imm5_eq, imm5Signed, offset6_eq, offset6Signed, offset9_eq,
        offset9Signed, offset11_eq, offset11Signed, trapvect8_eq, n_eq, z_eq,
        p_eq, shfType_eq, shfAmount_eq]
      have hop : w / 4096 % 16 = 14 := by omega
      simp only [hop]
      norm_num
      first
        | (split_ifs <;> omega)
        | (simp only [Option.some.injEq, Instruction.LeaEffectiveAddr.injEq]
           split_ifs <;> omega)
        | omega
  | StoreByte sv b off =>
    simp only [encode] at he
    split_ifs at he with hr
    · simp only [Option.some.injEq] at he
      simp only [decode, op_eq, dr_eq, sr1_eq, sr2_eq, bit5_eq, bit11_eq,
        imm5_eq, imm5Signed, offset6_eq, offset6Signed, offset9_eq,
        offset9Signed, offset11_eq, offset11Signed, trapvect8_eq, n_eq, z_eq,
        p_eq, shfType_eq, shfAmount_eq]
      have hop : w / 4096 % 16 = 3 := by omega
      simp only [hop]
      norm_num
      first
        | (split_ifs <;> omega)
        | (simp only [Option.some.injEq, Instruction.StoreByte.injEq]
           split_ifs <;> omega)
        | omega
  | StoreWord sv b off =>
    simp only [encode] at he
    split_ifs at he with hr
    · simp only [Option.some.injEq] at he
      simp only [decode, op_eq, dr_eq, sr1_eq, sr2_eq, bit5_eq, bit11_eq,
        imm5_eq, imm5Signed, offset6_eq, offset6Signed, offset9_eq,
        offset9Signed, offset11_eq, offset11Signed, trapvect8_eq, n_eq, z_eq,
        p_eq, shfType_eq, shfAmount_eq]
      have hop : w / 4096 % 16 = 7 := by omega
      simp only [hop]
      norm_num
      first
        | (split_ifs <;> omega)
        | (simp only [Option.some.injEq, Instruction.StoreWord.injEq]
           split_ifs <;> omega)
        | omega
  | StoreIndirect sv b off =>
    simp only [encode] at he
    split_ifs at he with hr
    · simp only [Option.some.injEq] at he
      simp only [decode, op_eq, dr_eq, sr1_eq, sr2_eq, bit5_eq, bit11_eq,
        imm5_eq, imm5Signed, offset6_eq, offset6Signed, offset9_eq,
        offset9Signed, offset11_eq, offset11Signed, trapvect8_eq, n_eq, z_eq,
        p_eq, shfType_eq, shfAmount_eq]
      have hop : w / 4096 % 16 = 11 := by omega
      simp only [hop]
      norm_num
      first
        | (split_ifs <;> omega)
        | (simp only [Option.some.injEq, Instruction.StoreIndirect.injEq]
           split_ifs <;> omega)
        | omega
  | ShiftLeft d sv a =>
    simp only [encode] at he
    split_ifs at he with hr
    · simp only [Option.some.injEq] at he
      simp only [decode, op_eq, dr_eq, sr1_eq, sr2_eq, bit5_eq, bit11_eq,
        imm5_eq, imm5Signed, offset6_eq, offset6Signed, offset9_eq,
        offset9Signed, offset11_eq, offset11Signed, trapvect8_eq, n_eq, z_eq,
        p_eq, shfType_eq, shfAmount_eq]
      have hop : w / 4096 % 16 = 13 := by omega
      simp only [hop]
      norm_num
      have ht : w / 16 % 4 = 0 := by omega
      simp only [ht]
      norm_num
      first
        | omega
        | (simp only [Option.some.injEq, Instruction.ShiftLeft.injEq]
           omega)
  | ShiftRightLogical d sv a =>
    simp only [encode] at he
    split_ifs at he with hr
    · simp only [Option.some.injEq] at he
      simp only [decode, op_eq, dr_eq, sr1_eq, sr2_eq, bit5_eq, bit11_eq,
        imm5_eq, imm5Signed, offset6_eq, offset6Signed, offset9_eq,
        offset9Signed, offset11_eq, offset11Signed, trapvect8_eq, n_eq, z_eq,
        p_eq, shfType_eq, shfAmount_eq]
      have hop : w / 4096 % 16 = 13 := by omega
      simp only [hop]
      norm_num
      have ht : w / 16 % 4 = 1 := by omega
      simp only [ht]
      norm_num
      first
        | omega
        | (simp only [Option.some.injEq, Instruction.ShiftRightLogical.injEq]
           omega)
  | ShiftRightArithmetic d sv a =>
    simp only [encode] at he
    split_ifs at he with hr
    · simp only [Option.some.injEq] at he
      simp only [decode, op_eq, dr_eq, sr1_eq, sr2_eq, bit5_eq, bit11_eq,
        imm5_eq, imm5Signed, offset6_eq, offset6Signed, offset9_eq,
        offset9Signed, offset11_eq, offset11Signed, trapvect8_eq, n_eq, z_eq,
        p_eq, shfType_eq, shfAmount_eq]
      have hop : w / 4096 % 16 = 13 := by omega
      simp only [hop]
      norm_num
      have ht : w / 16 % 4 = 3 := by omega
      simp only [ht]
      norm_num
      first
        | omega
        | (simp only [Option.some.injEq, Instruction.ShiftRightArithmetic.injEq]
           omega)
  | ReturnFromInterrupt =>
    simp only [encode, Option.some.injEq] at he
    simp only [decode, op_eq, dr_eq, sr1_eq, sr2_eq, bit5_eq, bit11_eq,
        imm5_eq, imm5Signed, offset6_eq, offset6Signed, offset9_eq,
        offset9Signed, offset11_eq, offset11Signed, trapvect8_eq, n_eq, z_eq,
        p_eq, shfType_eq, shfAmount_eq]
    have hop : w / 4096 % 16 = 8 := by omega
    simp only [hop]
    norm_num
  | Trap v =>
    simp only [encode] at he
    split_ifs at he with hr
    · simp only [Option.some.injEq] at he
      simp only [decode, op_eq, dr_eq, sr1_eq, sr2_eq, bit5_eq, bit11_eq,
        imm5_eq, imm5Signed, offset6_eq, offset6Signed, offset9_eq,
        offset9Signed, offset11_eq, offset11Signed, trapvect8_eq, n_eq, z_eq,
        p_eq, shfType_eq, shfAmount_eq]
      have hop : w / 4096 % 16 = 15 := by omega
      simp only [hop]
      norm_num
      first
        | omega
        | (simp only [Option.some.injEq, Instruction.Trap.injEq]
           omega)

end Isa

/-! ### Claim theorems -/

open MemoryViewer in
/-- C2: every opcode selector outside the sixteen recognized cases falls to the
`switch`'s `default` arm, which returns the explicit Unknown result — a fixed
record distinct from every named variant — rather than panicking or aliasing
another instruction. (For 16-bit words all sixteen selector values are
recognized, so no word actually reaches this arm; see C9.) -/
theorem c2_reserved_decodes_unknown (o word : Nat) (ho : 15 < o) :
    decodeCase o word =
      ⟨"???", "Unknown", "", "Reserved/Unknown opcode"⟩ := by
  unfold decodeCase
  have hne : ∀ k, k < 16 → ¬(o = k) := fun k hk he => by omega
  rw [if_neg (hne 0 (by norm_num)), if_neg (hne 1 (by norm_num)), if_neg (hne 2 (by norm_num)), if_neg (hne 3 (by norm_num)), if_neg (hne 4 (by norm_num)), if_neg (hne 5 (by norm_num)), if_neg (hne 6 (by norm_num)), if_neg (hne 7 (by norm_num)), if_neg (hne 8 (by norm_num)), if_neg (hne 9 (by norm_num)), if_neg (hne 10 (by norm_num)), if_neg (hne 11 (by norm_num)), if_neg (hne 12 (by norm_num)), if_neg (hne 13 (by norm_num)), if_neg (hne 14 (by norm_num)), if_neg (hne 15 (by norm_num))]

open MemoryViewer in
/-- Witness for C2 at the concrete selector 16. -/
theorem c2_witness :
    15 < 16 ∧ decodeCase 16 0 = ⟨"???", "Unknown", "", "Reserved/Unknown opcode"⟩ :=
  ⟨by decide, c2_reserved_decodes_unknown 16 0 (by decide)⟩

open Computer in
/-- C3: once the computer reports halted, every further step request is a
no-op: for any behaviour `next` of the foreign `next_instruction` (which is
therefore never invoked to any effect), any number of repeated
`handleNextInstruction` calls returns the component state unchanged — same
instruction count, registers, program counter and console output. -/
theorem c3_halted_step_noop (next : WasmComputer → WasmComputer)
    (st : UIState) (c : WasmComputer) (hc : st.computer = some c)
    (hh : c.halted = true) :
    ∀ k : Nat, (handleNextInstruction next)^[k] st = st := by
  have hstep : handleNextInstruction next st = st := by
    simp [handleNextInstruction, hc, hh]
  intro k
  induction k with
  | zero => rfl
  | succ m ih => rw [Function.iterate_succ_apply, hstep, ih]

open Computer in
/-- Witness for C3: a concrete halted computer, stepped three times. -/
theorem c3_witness :
    (handleNextInstruction id)^[3]
        (⟨"", some ⟨0x3000, 0, 0, 0, 0, 0, 0, 0, 0, false, true, false, "ok", true, -1⟩,
          true, none, 5, 0x3000, false, true, false, 0, 0, 0, 0, 0, 0, 0, 0, none,
          "ok", true⟩ : UIState) =
      ⟨"", some ⟨0x3000, 0, 0, 0, 0, 0, 0, 0, 0, false, true, false, "ok", true, -1⟩,
        true, none, 5, 0x3000, false, true, false, 0, 0, 0, 0, 0, 0, 0, 0, none,
        "ok", true⟩ :=
  c3_halted_step_noop id _ _ rfl rfl 3

open MemoryViewer in
/-- C6: each signed field produced by the decoder is the two's-complement sign
extension of its raw bit field — the 5-bit immediate lies in [-16, 15], the
6-bit offset in [-32, 31], the 9-bit offset in [-256, 255], the 11-bit offset
in [-1024, 1023], and each is congruent to its raw unsigned field modulo the
field width's power of two. -/
theorem c6_sign_extension (w : Nat) :
    (-16 ≤ imm5Signed w ∧ imm5Signed w ≤ 15 ∧
      imm5Signed w % 32 = (imm5 w : Int)) ∧
    (-32 ≤ offset6Signed w ∧ offset6Signed w ≤ 31 ∧
      offset6Signed w % 64 = (offset6 w : Int)) ∧
    (-256 ≤ offset9Signed w ∧ offset9Signed w ≤ 255 ∧
      offset9Signed w % 512 = (offset9 w : Int)) ∧
    (-1024 ≤ offset11Signed w ∧ offset11Signed w ≤ 1023 ∧
      offset11Signed w % 2048 = (offset11 w : Int)) := by
  simp only [imm5Signed, offset6Signed, offset9Signed, offset11Signed,
    imm5_eq, offset6_eq, offset9_eq, offset11_eq]
  split_ifs <;> omega

open MemoryViewer in
/-- C4: for opcode `0b1001` with bit 5 set, the decoder yields the NOT variant
exactly when the 5-bit immediate field is all ones (sign-extended value −1)
and the XOR-immediate variant for every other immediate; with bit 5 clear it
yields the XOR-register variant. -/
theorem c4_not_xor_selection (w : Nat) (h9 : op w = 9) :
    (bit5 w = 1 →
      (((decodeInstruction w).variant = "Not") ↔ imm5 w = 31) ∧
      (imm5 w ≠ 31 → (decodeInstruction w).variant = "XorImm")) ∧
    (bit5 w ≠ 1 → (decodeInstruction w).variant = "XorReg") ∧
    (imm5 w = 31 ↔ imm5Signed w = -1) := by
  have hdec : decodeInstruction w = decodeCase 9 w := by
    rw [decodeInstruction, h9]
  refine ⟨fun hb5 => ⟨⟨fun hvar => ?_, fun himm => ?_⟩, fun himm => ?_⟩,
    fun hb5 => ?_, ?_⟩
  · by_contra himm
    rw [hdec] at hvar
    simp only [decodeCase] at hvar
    norm_num at hvar
    rw [if_neg (fun hq => himm hq.2), if_pos hb5] at hvar
    simp at hvar
  · rw [hdec]
    simp only [decodeCase]
    norm_num
    rw [if_pos ⟨hb5, himm⟩]
  · rw [hdec]
    simp only [decodeCase]
    norm_num
    rw [if_neg (fun hq => himm hq.2), if_pos hb5]
  · rw [hdec]
    simp only [decodeCase]
    norm_num
    rw [if_neg (fun hq => hb5 hq.1), if_neg hb5]
  · simp only [imm5Signed, imm5_eq]
    constructor
    · intro h31
      rw [h31]
      norm_num
    · intro hs
      split_ifs at hs <;> omega

open MemoryViewer in
/-- Witness for C4 at the concrete words `0x903F` (NOT), `0x9021`
(XOR-immediate) and `0x9001` (XOR-register). -/
theorem c4_witness :
    (decodeInstruction 0x903F).variant = "Not" ∧
    (decodeInstruction 0x9021).variant = "XorImm" ∧
    (decodeInstruction 0x9001).variant = "XorReg" :=
  ⟨((c4_not_xor_selection 0x903F (by decide)).1 (by decide)).1.mpr (by decide),
   ((c4_not_xor_selection 0x9021 (by decide)).1 (by decide)).2 (by decide),
   (c4_not_xor_selection 0x9001 (by decide)).2.1 (by decide)⟩

open MemoryViewer in
/-- C7: for opcode `0b1101`, bits [5:4] select the shift form per the
documented encodings — 00 is LSHF, 01 is RSHFL, 11 is RSHFA. -/
theorem c7_shift_selection (w : Nat) (h13 : op w = 13) :
    (shfType w = 0 → (decodeInstruction w).opcode = "LSHF" ∧
      (decodeInstruction w).variant = "Shf(LSHF)") ∧
    (shfType w = 1 → (decodeInstruction w).opcode = "RSHFL" ∧
      (decodeInstruction w).variant = "Shf(RSHFL)") ∧
    (shfType w = 3 → (decodeInstruction w).opcode = "RSHFA" ∧
      (decodeInstruction w).variant = "Shf(RSHFA)") := by
  have hdec : decodeInstruction w = decodeCase 13 w := by
    rw [decodeInstruction, h13]
  refine ⟨fun ht => ?_, fun ht => ?_, fun ht => ?_⟩ <;>
    rw [hdec] <;> simp only [decodeCase] <;> norm_num
  · rw [if_pos ht]
    exact ⟨rfl, rfl⟩
  · rw [if_neg (by omega), if_pos ht]
    exact ⟨rfl, rfl⟩
  · rw [if_neg (by omega), if_neg (by omega)]
    exact ⟨rfl, rfl⟩

open MemoryViewer in
/-- Witness for C7 at the concrete words `0xD102`, `0xD112` and `0xD132`. -/
theorem c7_witness :
    (decodeInstruction 0xD102).opcode = "LSHF" ∧
    (decodeInstruction 0xD112).opcode = "RSHFL" ∧
    (decodeInstruction 0xD132).opcode = "RSHFA" :=
  ⟨((c7_shift_selection 0xD102 (by decide)).1 (by decide)).1,
   ((c7_shift_selection 0xD112 (by decide)).2.1 (by decide)).1,
   ((c7_shift_selection 0xD132 (by decide)).2.2 (by decide)).1⟩

open Computer in
/-- C8: loading is all-or-nothing full reconstruction — the handler's result
never depends on the previously held computer; on success the fresh instance
is installed with instruction count 0, console output empty and halted false;
on an assembly error no computer remains referenced and no partial output is
kept. -/
theorem c8_load_all_or_nothing
    (assemble : String → Except String WasmComputer) (st : UIState) :
    (∀ old, handleLoadProgram assemble { st with computer := old } =
        handleLoadProgram assemble st) ∧
    (∀ c, assemble st.assembly = .ok c → c.console = "" → c.halted = false →
      (handleLoadProgram assemble st).computer = some c ∧
      (handleLoadProgram assemble st).instructionCount = 0 ∧
      (handleLoadProgram assemble st).consoleOutput = "" ∧
      (handleLoadProgram assemble st).isHalted = false ∧
      (handleLoadProgram assemble st).programLoaded = true ∧
      (handleLoadProgram assemble st).loadError = none) ∧
    (∀ e, assemble st.assembly = .error e →
      (handleLoadProgram assemble st).computer = none ∧
      (handleLoadProgram assemble st).programLoaded = false ∧
      (handleLoadProgram assemble st).loadError = some e) := by
  refine ⟨fun old => ?_, fun c hok hcon hhalt => ?_, fun e herr => ?_⟩
  · cases hA : assemble st.assembly <;>
      simp [handleLoadProgram, hA, updateState]
  · simp [handleLoadProgram, hok, updateState, hcon, hhalt]
  · simp [handleLoadProgram, herr]

open Computer in
/-- Witness for C8: a concrete successful load and a concrete failed load. -/
theorem c8_witness :
    (handleLoadProgram
        (fun _ => .ok ⟨0x3000, 0, 0, 0, 0, 0, 0, 0, 0, false, true, false, "", false, -1⟩)
        (⟨"HALT", none, false, none, 7, 0, false, false, false, 1, 2, 3, 4, 5, 6, 7, 8,
          some 3, "old", true⟩ : UIState)).instructionCount = 0 ∧
    (handleLoadProgram (fun _ => .error "bad label")
        (⟨"HALT", none, false, none, 7, 0, false, false, false, 1, 2, 3, 4, 5, 6, 7, 8,
          some 3, "old", true⟩ : UIState)).computer = none :=
  ⟨((c8_load_all_or_nothing _ _).2.1 _ rfl rfl rfl).2.1,
   ((c8_load_all_or_nothing _ _).2.2 "bad label" rfl).1⟩

open MemoryViewer in
/-- The hexadecimal rendering of a number is never the empty string. -/
theorem natToHexUpper_length_pos (v : Nat) : 0 < (natToHexUpper v).length := by
  unfold natToHexUpper
  split
  · decide
  · rename_i hv
    match v, hv with
    | m + 1, _ =>
      show 0 < (hexDigits (m + 1)).length
      rw [hexDigits]
      simp

open MemoryViewer in
/-- Every trap display name has at least two characters. -/
theorem trapName_length (w : Nat) : 2 ≤ (trapName w).length := by
  unfold trapName
  split_ifs <;> first
    | decide
    | (rw [String.length_append]
       have h1 : ("x" : String).length = 1 := rfl
       have h2 := natToHexUpper_length_pos (trapvect8 w)
       omega)

open MemoryViewer in
/-- C9: `decodeInstruction` is total over all 65536 words and never returns
the Unknown variant — every 4-bit opcode value is handled by a named case, so
the reserved-opcode default arm is unreachable. -/
theorem c9_decode_never_unknown (w : Nat) (hw : w < 65536) :
    (decodeInstruction w).variant ≠ "Unknown" := by
  have hcase : op w = 0 ∨ op w = 1 ∨ op w = 2 ∨ op w = 3 ∨ op w = 4 ∨
      op w = 5 ∨ op w = 6 ∨ op w = 7 ∨ op w = 8 ∨ op w = 9 ∨ op w = 10 ∨
      op w = 11 ∨ op w = 12 ∨ op w = 13 ∨ op w = 14 ∨ op w = 15 := by
    rw [op_eq]; omega
  rw [decodeInstruction]
  rcases hcase with h|h|h|h|h|h|h|h|h|h|h|h|h|h|h|h <;> rw [h] <;>
    simp only [decodeCase] <;> norm_num
  all_goals first
    | simp
    | (simp only [brCond]; split_ifs <;> simp)
    | (split_ifs <;> simp)
    | (show ("Trap(" ++ trapName w ++ ")" : String) ≠ "Unknown"
       intro heq
       have hlen := congrArg String.length heq
       rw [String.length_append, String.length_append] at hlen
       have h5 : ("Trap(" : String).length = 5 := rfl
       have h1 : (")" : String).length = 1 := rfl
       have h7 : ("Unknown" : String).length = 7 := rfl
       have h2 := trapName_length w
       omega)

open MemoryViewer in
/-- Witness for C9 at the concrete word `0x8000` (RTI). -/
theorem c9_witness :
    (0x8000 : Nat) < 65536 ∧ (decodeInstruction 0x8000).variant ≠ "Unknown" :=
  ⟨by decide, c9_decode_never_unknown 0x8000 (by decide)⟩

open MemoryViewer in
/-- C5: the displayed effective-address arithmetic doubles the stored
instruction-word offset for the PC-relative opcodes (BR, JSR, LEA) and the
word-addressing base+offset opcodes (LDR/LDW, STR/STW, LDI, STI), while the
byte-addressing opcodes LDB and STB use the 6-bit offset undoubled. -/
theorem c5_offset_scaling (w : Nat) :
    (op w = 0 → (decodeInstruction w).comment =
      "Branch" ++ (if brCond w = "" then "" else " if " ++ brCond w)
        ++ " to PC + " ++ toString (2 * offset9Signed w)) ∧
    (op w = 4 → bit11 w = 1 → (decodeInstruction w).comment =
      "R7 = PC; PC = PC + " ++ toString (2 * offset11Signed w)) ∧
    (op w = 14 → (decodeInstruction w).comment =
      registerName (dr w) ++ " = PC + " ++ toString (2 * offset9Signed w)) ∧
    (op w = 6 → (decodeInstruction w).comment =
      registerName (dr w) ++ " = mem[" ++ registerName (sr1 w) ++ " + "
        ++ toString (2 * offset6Signed w) ++ "] (word)") ∧
    (op w = 7 → (decodeInstruction w).comment =
      "mem[" ++ registerName (sr1 w) ++ " + " ++ toString (2 * offset6Signed w)
        ++ "] = " ++ registerName (dr w) ++ " (word)") ∧
    (op w = 10 → (decodeInstruction w).comment =
      registerName (dr w) ++ " = mem[mem[" ++ registerName (sr1 w) ++ " + "
        ++ toString (2 * offset6Signed w) ++ "]]") ∧
    (op w = 11 → (decodeInstruction w).comment =
      "mem[mem[" ++ registerName (sr1 w) ++ " + " ++ toString (2 * offset6Signed w)
        ++ "]] = " ++ registerName (dr w)) ∧
    (op w = 2 → (decodeInstruction w).comment =
      registerName (dr w) ++ " = mem[" ++ registerName (sr1 w) ++ " + "
        ++ toString (offset6Signed w) ++ "] (byte)") ∧
    (op w = 3 → (decodeInstruction w).comment =
      "mem[" ++ registerName (sr1 w) ++ " + " ++ toString (offset6Signed w)
        ++ "] = " ++ registerName (dr w) ++ " (byte)") := by
  refine ⟨fun h => ?_, fun h hb => ?_, fun h => ?_, fun h => ?_, fun h => ?_,
    fun h => ?_, fun h => ?_, fun h => ?_, fun h => ?_⟩ <;>
    rw [decodeInstruction, h] <;> simp only [decodeCase] <;> norm_num
  all_goals first
    | rfl
    | (rw [if_pos hb, Int.mul_comm]; done)
    | (rw [Int.mul_comm]; done)

open MemoryViewer in
/-- Witness for C5 at the concrete words `0x6041` (LDR, doubled offset) and
`0x2041` (LDB, undoubled offset). -/
theorem c5_witness :
    (decodeInstruction 0x6041).comment =
      registerName (dr 0x6041) ++ " = mem[" ++ registerName (sr1 0x6041) ++ " + "
        ++ toString (2 * offset6Signed 0x6041) ++ "] (word)" ∧
    (decodeInstruction 0x2041).comment =
      registerName (dr 0x2041) ++ " = mem[" ++ registerName (sr1 0x2041) ++ " + "
        ++ toString (offset6Signed 0x2041) ++ "] (byte)" :=
  ⟨(c5_offset_scaling 0x6041).2.2.2.1 (by decide),
   (c5_offset_scaling 0x2041).2.2.2.2.2.2.2.1 (by decide)⟩

open MemoryViewer in
/-- Adjacent slices concatenate to the spanning slice. -/
theorem strSlice_append (s : List Char) (a b c : Nat) (h1 : a ≤ b)
    (h2 : b ≤ c) : strSlice s a b ++ strSlice s b c = strSlice s a c := by
  simp only [strSlice]
  have hd : s.drop b = (s.drop a).drop (b - a) := by
    rw [List.drop_drop]
    congr 1
    omega
  have hc : c - a = (b - a) + (c - b) := by omega
  rw [hd, hc, List.take_add]

open MemoryViewer in
/-- The slice spanning positions 0 to 16 of a 16-character list is the whole
list. -/
theorem strSlice_full (s : List Char) (h : s.length = 16) :
    strSlice s 0 16 = s := by
  simp only [strSlice, List.drop_zero, Nat.sub_zero]
  rw [← h, List.take_length]

open MemoryViewer in
/-- A number below `2^k` has at most `k` binary digits. -/
theorem natToBin_length : ∀ k num : Nat, num < 2 ^ k →
    (natToBin num).length ≤ k := by
  intro k
  induction k with
  | zero =>
    intro num h
    have h0 : num = 0 := by omega
    subst h0
    rw [natToBin]
    exact Nat.le_refl 0
  | succ k ih =>
    intro num h
    match num with
    | 0 =>
      rw [natToBin]
      simp
    | m + 1 =>
      rw [natToBin, List.length_append]
      have hlt : (m + 1) / 2 < 2 ^ k := by
        rw [pow_succ] at h
        omega
      have := ih ((m + 1) / 2) hlt
      simp
      omega

open MemoryViewer in
/-- The binary rendering of a 16-bit word, padded to 16 places, has exactly
16 characters. -/
theorem formatBinary_length (w : Nat) (hw : w < 65536) :
    (formatBinary w).length = 16 := by
  have hts : (toBinaryString w).length ≤ 16 := by
    unfold toBinaryString
    split
    · decide
    · refine natToBin_length 16 w ?_
      have h16 : (2 : Nat) ^ 16 = 65536 := by norm_num
      omega
  unfold formatBinary padStart16
  rw [List.length_append, List.length_replicate]
  omega

open MemoryViewer in
/-- C10: for every 16-bit word, the binary-field breakdown partitions the word
exactly — concatenating the bits of the returned segments, in order, yields
the full 16-character binary rendering, across all opcode classes and both
sub-forms chosen by bit 5 and bit 11. -/
theorem c10_breakdown_partition (w : Nat) (hw : w < 65536) :
    ((getBinaryBreakdown w).map BinarySegment.bits).join = formatBinary w := by
  have hlen := formatBinary_length w hw
  have hcase : op w = 0 ∨ op w = 1 ∨ op w = 2 ∨ op w = 3 ∨ op w = 4 ∨
      op w = 5 ∨ op w = 6 ∨ op w = 7 ∨ op w = 8 ∨ op w = 9 ∨ op w = 10 ∨
      op w = 11 ∨ op w = 12 ∨ op w = 13 ∨ op w = 14 ∨ op w = 15 := by
    rw [op_eq]; omega
  rcases hcase with h|h|h|h|h|h|h|h|h|h|h|h|h|h|h|h <;>
    (simp only [getBinaryBreakdown, h]
     norm_num
     try split_ifs
     all_goals simp [strSlice_append, strSlice_full, hlen])

open MemoryViewer in
/-- Witness for C10 at the concrete word `0x1234`. -/
theorem c10_witness :
    ((getBinaryBreakdown 0x1234).map BinarySegment.bits).join =
      formatBinary 0x1234 :=
  c10_breakdown_partition 0x1234 (by decide)

/-- C1 counterexample: the in-range instruction `Jmp R7` encodes to `0xC1C0`,
which decodes to the distinct `Ret` variant, so `decode (encode i) = i` fails
as stated; `XorImm` with immediate −1 likewise encodes to `0x957F`, which
decodes to `Not`. -/
theorem c1_counterexample :
    Isa.encode (Isa.Instruction.Jmp 7) = some 0xC1C0 ∧
    Isa.decode 0xC1C0 = some Isa.Instruction.Ret ∧
    Isa.decode 0xC1C0 ≠ some (Isa.Instruction.Jmp 7) ∧
    Isa.encode (Isa.Instruction.XorImm 2 5 (-1)) = some 0x957F ∧
    Isa.decode 0x957F = some (Isa.Instruction.Not 2 5) := by
  refine ⟨by decide, ?_, ?_, by decide, ?_⟩ <;> decide

/-- C1 (amended): round-tripping holds once the two aliased forms are set
aside — decoding after encoding restores every in-range instruction other
than `XorImm` with immediate −1 and `Jmp` with base register 7 (whose words
decode to `Not` and `Ret`), and encoding after decoding restores every 16-bit
word whose opcode/mode bits match the documented encoding templates. -/
theorem c1_roundtrip_amended :
    (∀ (i : Isa.Instruction) (w : Nat), Isa.canonical i →
      Isa.encode i = some w → Isa.decode w = some i) ∧
    (∀ w : Nat, w < 65536 → Isa.validWord w →
      (Isa.decode w).bind Isa.encode = some w) :=
  ⟨fun i w hc he => Isa.decode_encode i w hc he,
   fun w hw hv => Isa.encode_decode w hw hv⟩

/-- Witness for C1 at the concrete instruction `ADD R1, R1, #1` and its word
`0x1261`. -/
theorem c1_witness :
    Isa.decode 0x1261 = some (Isa.Instruction.AddImm 1 1 1) ∧
    (Isa.decode 0x1261).bind Isa.encode = some 0x1261 :=
  ⟨c1_roundtrip_amended.1 (Isa.Instruction.AddImm 1 1 1) 0x1261 trivial (by decide),
   c1_roundtrip_amended.2 0x1261 (by decide) (by unfold Isa.validWord; decide)⟩
